import Mathlib

/-!
Verification of the depression-risk classifier core (streamlit_app.py):
feature derivation (age at last menstrual period, perceived-stress sum),
answer normalization (binary flags, Likert labels, health labels),
feature-vector assembly (column selection in artifact order), and the
threshold-based scoring step.

Machine conventions: Python ints are modelled as `Int`; the model's
probability and threshold are modelled as exact rationals `ℚ` (the
claims about them concern only order comparisons and exact decimal
literals); Python dict lookups (which raise `KeyError` outside their
key set) and pandas column selection (which raises outside the column
set) are modelled as `Option`-valued functions, `none` standing for the
raised error.
-/

/-- A calendar date as its year/month/day fields (`datetime.date`). -/
structure Date where
  year : Int
  month : Int
  day : Int
deriving DecidableEq, Repr

/-- Source `calculate_age_r_lmp(dob, lmp_date)`:
`lmp_date.year - dob.year - ((lmp_date.month, lmp_date.day) < (dob.month, dob.day))`,
where the Python tuple comparison is lexicographic and the resulting
boolean coerces to 0 or 1. -/
def calculate_age_r_lmp (dob lmp_date : Date) : Int :=
  lmp_date.year - dob.year -
    (if lmp_date.month < dob.month ∨ (lmp_date.month = dob.month ∧ lmp_date.day < dob.day)
     then 1 else 0)

/-- Source `calculate_p_stress(control, confid, yourway, overcome)`: the sum
of the four stress-related items. -/
def calculate_p_stress (control confid yourway overcome : Int) : Int :=
  control + confid + yourway + overcome

/-- Lexicographic (year, month, day) order on dates: `a` on or before `b`. -/
def dateLe (a b : Date) : Prop :=
  a.year < b.year ∨
    (a.year = b.year ∧ (a.month < b.month ∨ (a.month = b.month ∧ a.day ≤ b.day)))

/-- Lexicographic (year, month, day) order on dates: `a` strictly before `b`. -/
def dateLt (a b : Date) : Prop :=
  a.year < b.year ∨
    (a.year = b.year ∧ (a.month < b.month ∨ (a.month = b.month ∧ a.day < b.day)))

instance (a b : Date) : Decidable (dateLe a b) := by
  unfold dateLe; infer_instance

instance (a b : Date) : Decidable (dateLt a b) := by
  unfold dateLt; infer_instance

/-- Source `diffislp_val = 2 if diffislp == "Yes" else 1`. -/
def diffislp_val (diffislp : String) : Int := if diffislp = "Yes" then 2 else 1

/-- Source `nisweat_val = 2 if nisweat == "Yes" else 1`. -/
def nisweat_val (nisweat : String) : Int := if nisweat = "Yes" then 2 else 1

/-- Source `tense_val = 2 if tense == "Yes" else 1`. -/
def tense_val (tense : String) : Int := if tense = "Yes" then 2 else 1

/-- Source `irritab_val = 2 if irritab == "Yes" else 1`. -/
def irritab_val (irritab : String) : Int := if irritab = "Yes" then 2 else 1

/-- Source `smoke_val = 2 if smoke_r == "Yes" else 1`. -/
def smoke_val (smoke_r : String) : Int := if smoke_r = "Yes" then 2 else 1

/-- Source `scale_labels = {1: "Never", 2: "Almost Never", 3: "Sometimes",
4: "Fairly Often", 5: "Very Often"}`, as the association list of its items. -/
def scale_labels : List (Int × String) :=
  [(1, "Never"), (2, "Almost Never"), (3, "Sometimes"), (4, "Fairly Often"), (5, "Very Often")]

/-- Source `scale_reverse = {v: k for k, v in scale_labels.items()}` followed by
the lookup `scale_reverse[label]`; `none` models the `KeyError` raised when the
label is outside the five-entry vocabulary. -/
def scale_reverse (label : String) : Option Int :=
  (scale_labels.find? (fun kv => kv.2 == label)).map (fun kv => kv.1)

/-- Source `health_map = {"Excellent": 1, "Very Good": 2, "Good": 3, "Fair": 4,
"Poor": 5}` followed by the lookup `health_map[health]`; `none` models the
`KeyError` raised outside the vocabulary. -/
def health_map (health : String) : Option Int :=
  ([("Excellent", (1 : Int)), ("Very Good", 2), ("Good", 3), ("Fair", 4), ("Poor", 5)].find?
      (fun kv => kv.1 == health)).map (fun kv => kv.2)

/-- Source: the single-row dataframe built from the ten named features, as an
association list from column name to value, in the order written in the source. -/
def input_data (tense irritab control p_stress yourway nisweat age_r_lmp smoke diffislp
    health : Int) : List (String × Int) :=
  [("TENSE", tense), ("IRRITAB", irritab), ("CONTROL", control), ("P_STRESS", p_stress),
   ("YOURWAY", yourway), ("NISWEAT", nisweat), ("AGE_R_LMP", age_r_lmp), ("SMOKE_R", smoke),
   ("DIFFISLP", diffislp), ("HEALTH", health)]

/-- Column lookup in the assembled row: `none` models the pandas `KeyError`
for a name that is not a column. -/
def lookupFeature (row : List (String × Int)) (name : String) : Option Int :=
  (row.find? (fun kv => kv.1 == name)).map (fun kv => kv.2)

/-- Source `input_data = input_data[top_features]`: select the named columns in
the given order; any name absent from the row makes the whole selection fail
(pandas raises), modelled by `none`. -/
def selectFeatures (row : List (String × Int)) : List String → Option (List Int)
  | [] => some []
  | name :: rest =>
    match lookupFeature row name with
    | none => none
    | some v => (selectFeatures row rest).map (fun vs => v :: vs)

/-- The model artifact loaded from `log_reg_model.pkl`: the pipeline's
probability function (opaque), the decision threshold, and the ordered
feature list (`top_features`). -/
structure ModelArtifact where
  predict_proba : List Int → ℚ
  threshold : ℚ
  features : List String

/-- Source `pred = int(prob >= threshold)`. -/
def pred (prob threshold : ℚ) : Int := if prob ≥ threshold then 1 else 0

/-- The raw answers collected by the form, as the strings and dates the
prediction handler reads. -/
structure RawAnswers where
  dob : Date
  lmp_date : Date
  diffislp : String
  nisweat : String
  tense : String
  irritab : String
  control : String
  confid : String
  yourway : String
  overcome : String
  smoke_r : String
  health : String

/-- The body of the `try` block of the prediction handler: normalize the
answers, derive `p_stress` and `age_r_lmp`, assemble the row, select the
artifact's features, and score.  `none` models any raised error
(`KeyError` from an unknown label or a missing column). -/
def predictPipeline (m : ModelArtifact) (r : RawAnswers) : Option (ℚ × Int) := do
  let dv := diffislp_val r.diffislp
  let nv := nisweat_val r.nisweat
  let tv := tense_val r.tense
  let iv := irritab_val r.irritab
  let sv := smoke_val r.smoke_r
  let hv ← health_map r.health
  let cv ← scale_reverse r.control
  let fv ← scale_reverse r.confid
  let yv ← scale_reverse r.yourway
  let ov ← scale_reverse r.overcome
  let p_stress := calculate_p_stress cv fv yv ov
  let age_r_lmp := calculate_age_r_lmp r.dob r.lmp_date
  let row := input_data tv iv cv p_stress yv nv age_r_lmp sv dv hv
  let vec ← selectFeatures row m.features
  let prob := m.predict_proba vec
  pure (prob, pred prob m.threshold)

/-- What the handler displays: either the results section (probability and
binary label) or the generic `"Error processing input"` message of the
`except` branch. -/
inductive Displayed where
  | results (prob : ℚ) (label : Int) : Displayed
  | errorMessage : Displayed
deriving DecidableEq

/-- The whole `st.button` handler: run the `try` block; any failure is caught
by the broad `except` and shown as the generic error.  The artifact is
returned alongside to record the handler's (absent) effect on it. -/
def handleRequest (m : ModelArtifact) (r : RawAnswers) : Displayed × ModelArtifact :=
  match predictPipeline m r with
  | some (prob, label) => (Displayed.results prob label, m)
  | none => (Displayed.errorMessage, m)

/-- C1: for every birth date and reference date on or after it, the age is the
year difference, lowered by one exactly when the reference month/day pair is
lexicographically before the birth month/day pair; at birth 1980-05-15 the age
is 39 on 2020-05-14, 40 on 2020-05-15 and 40 on 2020-05-16. -/
theorem calculate_age_r_lmp_spec (dob ref : Date) (h : dateLe dob ref) :
    ((ref.month < dob.month ∨ (ref.month = dob.month ∧ ref.day < dob.day)) →
        calculate_age_r_lmp dob ref = ref.year - dob.year - 1) ∧
    (¬(ref.month < dob.month ∨ (ref.month = dob.month ∧ ref.day < dob.day)) →
        calculate_age_r_lmp dob ref = ref.year - dob.year) ∧
    calculate_age_r_lmp ⟨1980, 5, 15⟩ ⟨2020, 5, 14⟩ = 39 ∧
    calculate_age_r_lmp ⟨1980, 5, 15⟩ ⟨2020, 5, 15⟩ = 40 ∧
    calculate_age_r_lmp ⟨1980, 5, 15⟩ ⟨2020, 5, 16⟩ = 40 := by
  refine ⟨fun hc => ?_, fun hc => ?_, by decide, by decide, by decide⟩
  · unfold calculate_age_r_lmp
    rw [if_pos hc]
  · unfold calculate_age_r_lmp
    rw [if_neg hc]
    omega

/-- C1 witness: the theorem applied at birth 1980-05-15, reference 2020-05-14. -/
theorem calculate_age_r_lmp_spec_witness :
    calculate_age_r_lmp ⟨1980, 5, 15⟩ ⟨2020, 5, 14⟩ = (2020 : Int) - 1980 - 1 :=
  (calculate_age_r_lmp_spec ⟨1980, 5, 15⟩ ⟨2020, 5, 14⟩ (by decide)).1 (by decide)

/-- C5: for four inputs each between 1 and 5, `calculate_p_stress` is exactly
the arithmetic sum and lies in [4, 20]; in particular 1+1+1+1 = 4,
5+5+5+5 = 20 and 2+3+4+5 = 14. -/
theorem calculate_p_stress_spec (a b c d : Int)
    (ha1 : 1 ≤ a) (ha5 : a ≤ 5) (hb1 : 1 ≤ b) (hb5 : b ≤ 5)
    (hc1 : 1 ≤ c) (hc5 : c ≤ 5) (hd1 : 1 ≤ d) (hd5 : d ≤ 5) :
    calculate_p_stress a b c d = a + b + c + d ∧
    4 ≤ calculate_p_stress a b c d ∧ calculate_p_stress a b c d ≤ 20 ∧
    calculate_p_stress 1 1 1 1 = 4 ∧ calculate_p_stress 5 5 5 5 = 20 ∧
    calculate_p_stress 2 3 4 5 = 14 := by
  unfold calculate_p_stress
  refine ⟨rfl, by omega, by omega, by decide, by decide, by decide⟩

/-- C5 witness: the theorem applied at (2, 3, 4, 5). -/
theorem calculate_p_stress_spec_witness :
    calculate_p_stress 2 3 4 5 = 2 + 3 + 4 + 5 :=
  (calculate_p_stress_spec 2 3 4 5 (by decide) (by decide) (by decide) (by decide)
    (by decide) (by decide) (by decide) (by decide)).1

/-- C8: when the reference (last-menstrual-period) date strictly precedes the
date of birth, `calculate_age_r_lmp` does not fail: it silently returns a
negative value. -/
theorem calculate_age_r_lmp_negative (dob lmp_date : Date)
    (h : dateLt lmp_date dob) : calculate_age_r_lmp dob lmp_date < 0 := by
  unfold calculate_age_r_lmp
  unfold dateLt at h
  split_ifs with hc <;> omega

/-- C8 witness: the theorem applied at birth 1980-05-15, reference 1979-03-01. -/
theorem calculate_age_r_lmp_negative_witness :
    calculate_age_r_lmp ⟨1980, 5, 15⟩ ⟨1979, 3, 1⟩ < 0 :=
  calculate_age_r_lmp_negative ⟨1980, 5, 15⟩ ⟨1979, 3, 1⟩ (by decide)

/-- C10: `calculate_p_stress` is invariant under every permutation of its four
arguments. -/
theorem calculate_p_stress_perm_invariant (a b c d : Int) (σ : Equiv.Perm (Fin 4)) :
    calculate_p_stress (![a, b, c, d] (σ 0)) (![a, b, c, d] (σ 1))
      (![a, b, c, d] (σ 2)) (![a, b, c, d] (σ 3)) = calculate_p_stress a b c d := by
  unfold calculate_p_stress
  have h := Equiv.sum_comp σ (![a, b, c, d])
  rw [Fin.sum_univ_four, Fin.sum_univ_four] at h
  simpa using h

/-- C2: the label is 1 exactly when the probability reaches the threshold,
0 exactly when it falls short, with the comparison inclusive on the high side;
at threshold 0.5, probability 0.5 gives 1, 0.4999 gives 0, 0.5001 gives 1. -/
theorem pred_threshold_spec (p t : ℚ) (hp0 : 0 ≤ p) (hp1 : p ≤ 1)
    (ht0 : 0 ≤ t) (ht1 : t ≤ 1) :
    (pred p t = 1 ↔ t ≤ p) ∧ (pred p t = 0 ↔ p < t) ∧
    pred (1 / 2) (1 / 2) = 1 ∧ pred (4999 / 10000) (1 / 2) = 0 ∧
    pred (5001 / 10000) (1 / 2) = 1 := by
  unfold pred
  refine ⟨?_, ?_, by norm_num, by norm_num, by norm_num⟩
  · split_ifs with hge
    · simpa using hge
    · simp only [ge_iff_le] at hge
      simp [hge]
  · split_ifs with hge
    · simp only [ge_iff_le] at hge
      constructor
      · intro h0; omega
      · intro hlt; exact absurd hge (not_le.mpr hlt)
    · simp only [ge_iff_le, not_le] at hge
      simp [hge]

/-- C2 witness: the theorem applied at probability 1/2, threshold 1/2. -/
theorem pred_threshold_spec_witness : pred (1 / 2) (1 / 2) = 1 :=
  ((pred_threshold_spec (1 / 2) (1 / 2) (by norm_num) (by norm_num) (by norm_num)
      (by norm_num)).1).mpr (by norm_num)

/-- C3 counterexample: the string "maybe" is outside the Yes/No vocabulary,
yet every binary-flag normalizer maps it to the numeric code 1 instead of
failing. -/
theorem binary_flags_counterexample :
    "maybe" ≠ "Yes" ∧ "maybe" ≠ "No" ∧
    diffislp_val "maybe" = 1 ∧ nisweat_val "maybe" = 1 ∧ tense_val "maybe" = 1 ∧
    irritab_val "maybe" = 1 ∧ smoke_val "maybe" = 1 := by decide

/-- C3 amended: each of the five binary-flag normalizers maps "Yes" to 2 and
every other string — "No" and out-of-vocabulary strings such as "maybe"
alike — to 1; none of them ever fails. -/
theorem binary_flags_amended (s : String) (h : s ≠ "Yes") :
    diffislp_val "Yes" = 2 ∧ nisweat_val "Yes" = 2 ∧ tense_val "Yes" = 2 ∧
    irritab_val "Yes" = 2 ∧ smoke_val "Yes" = 2 ∧
    diffislp_val s = 1 ∧ nisweat_val s = 1 ∧ tense_val s = 1 ∧
    irritab_val s = 1 ∧ smoke_val s = 1 := by
  unfold diffislp_val nisweat_val tense_val irritab_val smoke_val
  simp [h]

/-- C3 amended witness: the amended theorem applied at "maybe". -/
theorem binary_flags_amended_witness : diffislp_val "maybe" = 1 :=
  (binary_flags_amended "maybe" (by decide)).2.2.2.2.2.1

/-- C4: the five Likert labels map to 1..5, the five health labels map to
1..5, and every string outside either vocabulary makes the corresponding
lookup fail (the dict raises `KeyError`, modelled by `none`). -/
theorem label_maps_spec (s u : String)
    (hs : s ∉ ["Never", "Almost Never", "Sometimes", "Fairly Often", "Very Often"])
    (hu : u ∉ ["Excellent", "Very Good", "Good", "Fair", "Poor"]) :
    (scale_reverse "Never" = some 1 ∧ scale_reverse "Almost Never" = some 2 ∧
     scale_reverse "Sometimes" = some 3 ∧ scale_reverse "Fairly Often" = some 4 ∧
     scale_reverse "Very Often" = some 5) ∧
    (health_map "Excellent" = some 1 ∧ health_map "Very Good" = some 2 ∧
     health_map "Good" = some 3 ∧ health_map "Fair" = some 4 ∧
     health_map "Poor" = some 5) ∧
    scale_reverse s = none ∧ health_map u = none := by
  simp only [List.mem_cons, List.not_mem_nil, or_false, not_or] at hs hu
  obtain ⟨hs1, hs2, hs3, hs4, hs5⟩ := hs
  obtain ⟨hu1, hu2, hu3, hu4, hu5⟩ := hu
  refine ⟨⟨by decide, by decide, by decide, by decide, by decide⟩,
    ⟨by decide, by decide, by decide, by decide, by decide⟩, ?_, ?_⟩
  · simp only [scale_reverse, scale_labels, Option.map_eq_none', List.find?_eq_none]
    rintro ⟨k, v⟩ hkv
    simp only [List.mem_cons, List.not_mem_nil, or_false, Prod.mk.injEq] at hkv
    simp only [beq_iff_eq]
    rintro rfl
    rcases hkv with ⟨_, rfl⟩ | ⟨_, rfl⟩ | ⟨_, rfl⟩ | ⟨_, rfl⟩ | ⟨_, rfl⟩ <;> simp_all
  · simp only [health_map, Option.map_eq_none', List.find?_eq_none]
    rintro ⟨v, k⟩ hkv
    simp only [List.mem_cons, List.not_mem_nil, or_false, Prod.mk.injEq] at hkv
    simp only [beq_iff_eq]
    rintro rfl
    rcases hkv with ⟨rfl, _⟩ | ⟨rfl, _⟩ | ⟨rfl, _⟩ | ⟨rfl, _⟩ | ⟨rfl, _⟩ <;> simp_all

/-- C4 witness: the theorem applied at the out-of-vocabulary string "maybe". -/
theorem label_maps_spec_witness :
    scale_reverse "maybe" = none ∧ health_map "maybe" = none :=
  ⟨(label_maps_spec "maybe" "maybe" (by decide) (by decide)).2.2.1,
   (label_maps_spec "maybe" "maybe" (by decide) (by decide)).2.2.2⟩

lemma selectFeatures_eq_some_of_forall (row : List (String × Int)) :
    ∀ order : List String, (∀ nm ∈ order, (lookupFeature row nm).isSome) →
      selectFeatures row order =
        some (order.map (fun nm => (lookupFeature row nm).getD 0)) := by
  intro order
  induction order with
  | nil => intro _; rfl
  | cons nm rest ih =>
    intro hall
    have h1 : (lookupFeature row nm).isSome := hall nm (List.mem_cons_self nm rest)
    obtain ⟨v, hv⟩ := Option.isSome_iff_exists.mp h1
    simp only [selectFeatures, hv]
    rw [ih (fun x hx => hall x (List.mem_cons_of_mem _ hx))]
    simp [hv]

lemma selectFeatures_eq_none_of_missing (row : List (String × Int)) :
    ∀ order : List String, (∃ nm ∈ order, lookupFeature row nm = none) →
      selectFeatures row order = none := by
  intro order
  induction order with
  | nil =>
    rintro ⟨nm, hmem, _⟩
    exact absurd hmem (List.not_mem_nil nm)
  | cons nm rest ih =>
    rintro ⟨x, hx, hnone⟩
    rcases List.mem_cons.mp hx with rfl | hx2
    · simp [selectFeatures, hnone]
    · simp only [selectFeatures]
      cases hl : lookupFeature row nm with
      | none => rfl
      | some v => rw [ih ⟨x, hx2, hnone⟩]; rfl

/-- C6: for any values of the ten features and any requested column order,
selection returns exactly the looked-up values of the requested names in the
requested order when every name is a column of the row (so permuting the
order permutes the output identically), and fails when any requested name is
not a column. -/
theorem select_features_spec (t i c p y n a s d h : Int) (order : List String) :
    ((∀ nm ∈ order, (lookupFeature (input_data t i c p y n a s d h) nm).isSome) →
      selectFeatures (input_data t i c p y n a s d h) order =
        some (order.map
          (fun nm => (lookupFeature (input_data t i c p y n a s d h) nm).getD 0))) ∧
    ((∃ nm ∈ order, lookupFeature (input_data t i c p y n a s d h) nm = none) →
      selectFeatures (input_data t i c p y n a s d h) order = none) :=
  ⟨selectFeatures_eq_some_of_forall (input_data t i c p y n a s d h) order,
   selectFeatures_eq_none_of_missing (input_data t i c p y n a s d h) order⟩

/-- C6 witness: the theorem applied at the fully assembled example row, once
with two known columns and once with "UNKNOWN_FEATURE" in the order. -/
theorem select_features_spec_witness :
    selectFeatures (input_data 2 1 3 13 1 1 50 1 2 3) ["DIFFISLP", "TENSE"] = some [2, 2] ∧
    selectFeatures (input_data 2 1 3 13 1 1 50 1 2 3) ["TENSE", "UNKNOWN_FEATURE"] = none := by
  constructor
  · have h := (select_features_spec 2 1 3 13 1 1 50 1 2 3 ["DIFFISLP", "TENSE"]).1 (by decide)
    rw [h]; rfl
  · exact (select_features_spec 2 1 3 13 1 1 50 1 2 3 ["TENSE", "UNKNOWN_FEATURE"]).2
      ⟨"UNKNOWN_FEATURE", by decide, by decide⟩

/-- C7: with a fixed artifact, the full normalize-derive-assemble-score chain
is a pure function of the raw answers: identical answers yield identical
probability and identical label (purity and determinism are intrinsic to the
embedding — the chain reads nothing but its arguments). -/
theorem predict_deterministic (m : ModelArtifact) (r₁ r₂ : RawAnswers) (h : r₁ = r₂) :
    predictPipeline m r₁ = predictPipeline m r₂ := by rw [h]

/-- C7 witness: the theorem applied at a concrete artifact and the end-to-end
example answers. -/
theorem predict_deterministic_witness :
    predictPipeline ⟨fun _ => 1 / 2, 1 / 2, ["TENSE", "P_STRESS"]⟩
        ⟨⟨1970, 1, 1⟩, ⟨2020, 1, 1⟩, "Yes", "No", "Yes", "No", "Sometimes",
          "Fairly Often", "Never", "Very Often", "No", "Good"⟩ =
      predictPipeline ⟨fun _ => 1 / 2, 1 / 2, ["TENSE", "P_STRESS"]⟩
        ⟨⟨1970, 1, 1⟩, ⟨2020, 1, 1⟩, "Yes", "No", "Yes", "No", "Sometimes",
          "Fairly Often", "Never", "Very Often", "No", "Good"⟩ :=
  predict_deterministic _ _ _ rfl

/-- C9: the handler never lets a failure escape — a failing pipeline is shown
as the generic error message, a succeeding one as its results — and the
artifact comes out of the handler exactly as it went in. -/
theorem broad_handler_spec (m : ModelArtifact) (r : RawAnswers) :
    (handleRequest m r).2 = m ∧
    (predictPipeline m r = none → (handleRequest m r).1 = Displayed.errorMessage) ∧
    (∀ p l, predictPipeline m r = some (p, l) →
      (handleRequest m r).1 = Displayed.results p l) := by
  cases hpl : predictPipeline m r with
  | none =>
    refine ⟨by simp [handleRequest, hpl], fun _ => by simp [handleRequest, hpl],
      fun p l hs => ?_⟩
    exact absurd hs (by simp)
  | some pl =>
    obtain ⟨p, l⟩ := pl
    refine ⟨by simp [handleRequest, hpl], fun hn => ?_, fun p2 l2 hs => ?_⟩
    · exact absurd hn (by simp)
    · simp only [Option.some.injEq, Prod.mk.injEq] at hs
      obtain ⟨rfl, rfl⟩ := hs
      simp [handleRequest, hpl]

/-- C9 witness: the theorem applied at a concrete artifact and answers whose
Likert label "maybe" makes the pipeline fail; the generic error is shown. -/
theorem broad_handler_spec_witness :
    (handleRequest ⟨fun _ => 1 / 2, 1 / 2, ["TENSE"]⟩
        ⟨⟨1970, 1, 1⟩, ⟨2020, 1, 1⟩, "Yes", "No", "Yes", "No", "maybe",
          "Fairly Often", "Never", "Very Often", "No", "Good"⟩).1 =
      Displayed.errorMessage :=
  (broad_handler_spec _ _).2.1 rfl
